import Mathlib

/-!
Shallow embedding of the live-session engine of the KAI AI assistant
(the `LiveSession` component): the gapless playback scheduler, the
interruption handler, the tool-call dispatcher with its task/widget
state, and the resource lifecycle (`startSession` / `stopSession` /
`cleanupAudio` / `cleanupVideo`), together with proofs of the
specification's claims about them.

Times on the audio output clock are rationals.  Browser and network
effects (random weather/stock values, the remote search call, the decode
outcome of an inbound audio chunk, microphone acquisition) enter as
explicit oracle parameters.  The component's React state and refs are
collected in one record; the state the tool handlers may touch
(widget, task, logs, pending timers, callback invocations) is grouped in
a sub-record `UiState`.  Wall-clock timestamps attached to log entries
are environment-dependent strings and are omitted from `LogEntry`.
A JavaScript exception inside a tool handler is modelled by `Except`:
`Except.error u` carries the ui-state at the moment of the throw.
-/

inductive LogType
  | info
  | tool
  | error
  | thought
deriving DecidableEq

structure LogEntry where
  message : String
  type : LogType
deriving DecidableEq

inductive AppMode
  | CHAT
  | TERMINAL
  | LIVE
deriving DecidableEq

inductive TaskStatus
  | idle
  | opening
  | searching
  | processing
  | payment
  | completed
deriving DecidableEq

/-- The `details` object set by the `order_food` handler. -/
structure OrderDetails where
  item : Option String
  price : String
deriving DecidableEq

/-- The single-slot `task` state (`TaskState` in the source). -/
structure TaskState where
  isActive : Bool
  appName : Option String
  actionDescription : Option String
  status : TaskStatus
  details : Option OrderDetails
deriving DecidableEq

/-- The discriminated widget union (`WidgetData` in the source). -/
inductive WidgetData
  | weather (location : String) (temp : ℚ) (condition : String)
  | stock (symbol : String) (price : ℚ) (history : List ℚ)
  | map (location : Option String) (lat : ℚ) (lng : ℚ)
  | note (title : String) (content : String)
deriving DecidableEq

structure GroundingSource where
  title : Option String
  uri : Option String
deriving DecidableEq

/-- The `result` object sent back by `sendToolResponse`, one shape per
handler; `errorMsg` is the catch-branch payload, `resultMsg` the
`\x7b result: ... \x7d` shape. -/
inductive ToolPayload
  | resultMsg (msg : String)
  | weatherData (weather : String) (temperature : ℚ) (unit : String) (location : Option String)
  | stockData (symbol : Option String) (price : String) (currency : String)
  | searchData (text : String) (sources : List GroundingSource)
  | errorMsg (msg : String)
deriving DecidableEq

/-- One `functionResponses` entry of `sendToolResponse`. -/
structure ToolResult where
  id : String
  name : String
  response : ToolPayload
deriving DecidableEq

/-- The nested `data` object of a `render_widget` call; absent JSON keys
are `none`. -/
structure WidgetArgData where
  location : Option String
  temp : Option ℚ
  condition : Option String
  symbol : Option String
  price : Option ℚ
  title : Option String
  content : Option String
deriving DecidableEq

/-- The argument mapping of a function call; each key the handlers read,
absent keys are `none` (JavaScript `undefined`). -/
structure ToolArgs where
  widget_type : Option String
  data : Option WidgetArgData
  message : Option String
  delay_seconds : Option ℚ
  tab_name : Option String
  location : Option String
  symbol : Option String
  app_name : Option String
  item : Option String
  query : Option String
deriving DecidableEq

/-- One entry of `message.toolCall.functionCalls`. -/
structure FunctionCall where
  id : String
  name : String
  args : ToolArgs
deriving DecidableEq

/-- The callbacks registered by `setTimeout` inside tool handlers,
recorded (with their delay in ms) rather than executed. -/
inductive TimerAction
  | searchComplete
  | searchIdle
  | foodPayment
  | openIdle
deriving DecidableEq

/-- The component state a tool handler can mutate: the single-slot
widget and task, the diagnostic log (`onLog`), registered timers, and
the `onSetReminder` / `onChangeTab` callback invocations. -/
@[ext]
structure UiState where
  activeWidget : Option WidgetData
  task : TaskState
  logs : List LogEntry
  pendingTimers : List (Nat × TimerAction)
  reminders : List (Option String × Option ℚ)
  tabChanges : List AppMode
deriving DecidableEq

/-- A decoded `AudioBufferSourceNode` scheduled for playback: its
identity, its scheduled start time and its duration. -/
structure ScheduledBuffer where
  id : Nat
  start : ℚ
  duration : ℚ
deriving DecidableEq

/-- The whole `LiveSession` component state.  `nextStartTime` is the
watermark (`nextStartTimeRef`), `liveSet` the set of ids in
`sourcesRef`, `scheduled` the history of scheduled buffers (new ids
come from the counter `nextId`), `stoppedBuffers` the ids on which
`stop()` has been called.  The `Bool` resource fields model whether the
corresponding ref currently holds an acquired resource. -/
@[ext]
structure SessionState where
  nextStartTime : ℚ
  liveSet : Finset Nat
  nextId : Nat
  scheduled : List ScheduledBuffer
  stoppedBuffers : Finset Nat
  toolResponses : List ToolResult
  ui : UiState
  isActive : Bool
  isCameraActive : Bool
  status : String
  volume : ℚ
  scriptProcessor : Bool
  sourceNode : Bool
  audioStream : Bool
  inputCtx : Bool
  outputCtx : Bool
  sessionChannel : Bool
  frameInterval : Bool
  videoStream : Bool
deriving DecidableEq

/-- Which of the optional component props are provided. -/
structure SessionConfig where
  hasOnSetReminder : Bool
  hasOnChangeTab : Bool
deriving DecidableEq

/-- Oracle for the external effects a single tool call may perform:
`Math.random()` outcomes and the result of the remote
`generateTextResponse` call (`none` models a rejected promise). -/
structure ToolEnv where
  randomWeather : String
  randomPrice : String
  stockDeltas : List ℚ
  searchOutcome : Option (String × List GroundingSource)
deriving DecidableEq

def defaultToolEnv : ToolEnv :=
  { randomWeather := "Sunny", randomPrice := "0.00", stockDeltas := [], searchOutcome := none }

/-- `addLog` / `onLog`: append a diagnostic entry. -/
def pushLog (u : UiState) (msg : String) (t : LogType) : UiState :=
  { u with logs := u.logs ++ [⟨msg, t⟩] }

/-- JavaScript template interpolation of a possibly-undefined string. -/
def jsTemplate (v : Option String) : String :=
  match v with
  | some s => s
  | none => "undefined"

/-- JavaScript `v || d` for a string value: `undefined` and `""` are falsy. -/
def jsOrString (v : Option String) (d : String) : String :=
  match v with
  | some s => if s = "" then d else s
  | none => d

/-- JavaScript `v || d` for a numeric value: `undefined` and `0` are falsy. -/
def jsOrNum (v : Option ℚ) (d : ℚ) : ℚ :=
  match v with
  | some n => if n = 0 then d else n
  | none => d

/-- JavaScript `s.includes(pat)` for a non-empty pattern. -/
def strContains (s pat : String) : Bool :=
  (s.splitOn pat).length > 1

/-- Tail of every `render_widget` branch: log `Rendering UI: <type>` and
set the success payload (this runs for unrecognized widget types too). -/
def finishRender (wtype : Option String) (u : UiState) :
    Except UiState (ToolPayload × UiState) :=
  Except.ok (ToolPayload.resultMsg "Widget rendered successfully.",
    pushLog u ("Rendering UI: " ++ jsTemplate wtype) LogType.thought)

/-- The body of the `try` block dispatching one function call, branch by
branch as in the source `onmessage` handler.  `Except.error u` models a
thrown exception (reading a property of an `undefined` object, or a
rejected awaited promise), carrying the ui-state mutated so far.  When
no branch matches the name, the initial `\x7b result: "ok" \x7d` payload is
returned untouched. -/
def runTool (cfg : SessionConfig) (env : ToolEnv) (fc : FunctionCall) (u : UiState) :
    Except UiState (ToolPayload × UiState) :=
  if fc.name = "render_widget" then
    let wtype := fc.args.widget_type
    if wtype = some "weather_card" then
      match fc.args.data with
      | none => Except.error u
      | some d =>
          finishRender wtype
            { u with activeWidget := some (WidgetData.weather
                (jsOrString d.location "Unknown") (jsOrNum d.temp 22)
                (jsOrString d.condition "Sunny")) }
    else if wtype = some "stock_chart" then
      match fc.args.data with
      | none => Except.error u
      | some d =>
          finishRender wtype
            { u with activeWidget := some (WidgetData.stock
                (jsOrString d.symbol "STK") (jsOrNum d.price 100)
                ((List.range 10).map (fun i => jsOrNum d.price 100 + env.stockDeltas.getD i 0))) }
    else if wtype = some "map_view" then
      match fc.args.data with
      | none => Except.error u
      | some d =>
          finishRender wtype
            { u with activeWidget := some (WidgetData.map d.location
                (35.6762 : ℚ) (139.6503 : ℚ)) }
    else if wtype = some "note_pad" then
      match fc.args.data with
      | none => Except.error u
      | some d =>
          finishRender wtype
            { u with activeWidget := some (WidgetData.note
                (jsOrString d.title "Note") (jsOrString d.content "")) }
    else
      finishRender wtype u
  else if fc.name = "set_reminder" then
    let u := if cfg.hasOnSetReminder then
        { u with reminders := u.reminders ++ [(fc.args.message, fc.args.delay_seconds)] }
      else u
    Except.ok (ToolPayload.resultMsg "Reminder set.", u)
  else if fc.name = "change_tab" then
    match fc.args.tab_name with
    | none => Except.error u
    | some t =>
        let tab := t.toLower
        let u := if cfg.hasOnChangeTab then
            if strContains tab "chat" then { u with tabChanges := u.tabChanges ++ [AppMode.CHAT] }
            else if strContains tab "term" then { u with tabChanges := u.tabChanges ++ [AppMode.TERMINAL] }
            else if strContains tab "live" then { u with tabChanges := u.tabChanges ++ [AppMode.LIVE] }
            else u
          else u
        Except.ok (ToolPayload.resultMsg ("Switched view to " ++ tab), u)
  else if fc.name = "get_weather" then
    Except.ok (ToolPayload.weatherData env.randomWeather 25 "Celsius" fc.args.location, u)
  else if fc.name = "get_stock_price" then
    Except.ok (ToolPayload.stockData fc.args.symbol env.randomPrice "USD", u)
  else if fc.name = "search_web" then
    let u := { u with task :=
      { isActive := true, appName := some "NetSearch", status := TaskStatus.searching,
        actionDescription := some ("QUERYING GLOBAL NETWORK: \"" ++ jsTemplate fc.args.query ++ "\""),
        details := none } }
    match env.searchOutcome with
    | none => Except.error u
    | some (text, srcs) =>
        let u := { u with pendingTimers := u.pendingTimers ++
          [(1000, TimerAction.searchComplete), (2000, TimerAction.searchIdle)] }
        Except.ok (ToolPayload.searchData text srcs, u)
  else if fc.name = "order_food" then
    let u := { u with
      task := { isActive := true, appName := some "FoodDelivery", status := TaskStatus.processing,
                actionDescription := some ("Ordering " ++ jsTemplate fc.args.item ++ "..."),
                details := some ⟨fc.args.item, "25.00"⟩ },
      pendingTimers := u.pendingTimers ++ [(2000, TimerAction.foodPayment)] }
    Except.ok (ToolPayload.resultMsg "Order staged. Waiting for payment.", u)
  else if fc.name = "open_app" then
    let u := { u with
      task := { isActive := true, appName := fc.args.app_name, status := TaskStatus.opening,
                actionDescription := some "LAUNCHING...", details := none },
      pendingTimers := u.pendingTimers ++ [(2000, TimerAction.openIdle)] }
    Except.ok (ToolPayload.resultMsg "App opened.", u)
  else
    Except.ok (ToolPayload.resultMsg "ok", u)

/-- Dispatch of one function call: log `Exec: <name>`, run the handler
inside try/catch (a throw becomes the `Tool execution failed` error
payload), then always send exactly one response carrying the call's id. -/
def dispatchCall (cfg : SessionConfig) (env : ToolEnv) (fc : FunctionCall)
    (s : SessionState) : SessionState :=
  match runTool cfg env fc (pushLog s.ui ("Exec: " ++ fc.name) LogType.tool) with
  | Except.ok (p, u2) =>
      { s with ui := u2, toolResponses := s.toolResponses ++ [⟨fc.id, fc.name, p⟩] }
  | Except.error u2 =>
      { s with ui := u2, toolResponses := s.toolResponses ++
          [⟨fc.id, fc.name, ToolPayload.errorMsg "Tool execution failed"⟩] }

/-- The single response produced for one dispatched call. -/
def dispatchResult (cfg : SessionConfig) (env : ToolEnv) (fc : FunctionCall)
    (s : SessionState) : ToolResult :=
  match runTool cfg env fc (pushLog s.ui ("Exec: " ++ fc.name) LogType.tool) with
  | Except.ok (p, _) => ⟨fc.id, fc.name, p⟩
  | Except.error _ => ⟨fc.id, fc.name, ToolPayload.errorMsg "Tool execution failed"⟩

/-- The `for (const fc of message.toolCall.functionCalls)` loop; the
oracle list supplies one `ToolEnv` per call. -/
def handleToolCalls (cfg : SessionConfig) :
    List ToolEnv → List FunctionCall → SessionState → SessionState
  | _, [], s => s
  | envs, fc :: rest, s =>
      handleToolCalls cfg envs.tail rest (dispatchCall cfg (envs.headD defaultToolEnv) fc s)

/-- Decode outcome of the inbound base64 audio of a server message:
a playable buffer of known duration, or a decode failure (a rejected
`decodeAudioData` promise). -/
inductive AudioDecode
  | ok (duration : ℚ)
  | failed
deriving DecidableEq

/-- A `LiveServerMessage` as far as `onmessage` inspects it. -/
structure ServerMessage where
  interrupted : Bool
  toolCall : Option (List FunctionCall)
  audio : Option AudioDecode
deriving DecidableEq

def audioMsg (d : ℚ) : ServerMessage :=
  { interrupted := false, toolCall := none, audio := some (AudioDecode.ok d) }

def failMsg : ServerMessage :=
  { interrupted := false, toolCall := none, audio := some AudioDecode.failed }

def interruptMsg : ServerMessage :=
  { interrupted := true, toolCall := none, audio := none }

/-- The `onmessage` callback at output-clock time `now`.
An interrupt stops and clears the live set, resets the watermark to the
output clock (`|| 0` when the context ref is gone) and returns early.
Otherwise tool calls are dispatched, then inbound audio is scheduled:
the watermark is first pulled up to `max(watermark, now)`; on decode
success the buffer starts there and the watermark advances by its
duration; on decode failure the thrown rejection skips the scheduling
(dropping the chunk) and nothing is logged. -/
def onmessage (cfg : SessionConfig) (envs : List ToolEnv) (now : ℚ)
    (m : ServerMessage) (s : SessionState) : SessionState :=
  if m.interrupted then
    { s with
      ui := pushLog s.ui "User Interruption Detected" LogType.info,
      stoppedBuffers := s.stoppedBuffers ∪ s.liveSet,
      liveSet := ∅,
      nextStartTime := if s.outputCtx then now else 0 }
  else
    let s1 := match m.toolCall with
      | some fcs => handleToolCalls cfg envs fcs s
      | none => s
    match m.audio with
    | none => s1
    | some (AudioDecode.ok d) =>
        { s1 with
          nextStartTime := max s1.nextStartTime now + d,
          liveSet := insert s1.nextId s1.liveSet,
          nextId := s1.nextId + 1,
          scheduled := s1.scheduled ++ [⟨s1.nextId, max s1.nextStartTime now, d⟩] }
    | some AudioDecode.failed =>
        { s1 with nextStartTime := max s1.nextStartTime now }

/-- The `ended` listener of a scheduled buffer: natural completion
removes it from the live set. -/
def onBufferEnded (i : Nat) (s : SessionState) : SessionState :=
  { s with liveSet := s.liveSet.erase i }

def cfg0 : SessionConfig := ⟨true, true⟩

/-- A run of audio-only server messages, each given as an
(arrival clock time, decoded duration) pair. -/
def runChunks : List (ℚ × ℚ) → SessionState → SessionState
  | [], s => s
  | (now, d) :: rest, s => runChunks rest (onmessage cfg0 [] now (audioMsg d) s)

/-- The start times the run scheduled beyond those already in `s`. -/
def newStarts (l : List (ℚ × ℚ)) (s : SessionState) : List ℚ :=
  ((runChunks l s).scheduled.drop s.scheduled.length).map ScheduledBuffer.start

/-- Start times computed by the scheduler recurrence
`start = max(watermark, now)`, `watermark = start + d`. -/
def chunkStarts (w : ℚ) : List (ℚ × ℚ) → List ℚ
  | [] => []
  | (now, d) :: rest => max w now :: chunkStarts (max w now + d) rest

/-- Back-to-back start times predicted by the spec: the first chunk at
`start`, each next chunk at the previous start plus its duration. -/
def gaplessFrom (start : ℚ) : List ℚ → List ℚ
  | [] => []
  | d :: rest => start :: gaplessFrom (start + d) rest

/-- Arrival promptness: every chunk of the list arrives no later than
the running watermark (chunks arrive at least as fast as real time). -/
def promptTail (w : ℚ) : List (ℚ × ℚ) → Bool
  | [] => true
  | (now, d) :: rest => decide (now ≤ w) && promptTail (max w now + d) rest

/-- Calling a method on a ref: throws when the ref is null. -/
def refRelease (present : Bool) : Except String Bool :=
  if present then Except.ok false else Except.error "method call on a null ref"

/-- The guard pattern `if (ref) \x7b ref.release(); ref = null \x7d`: release
only a held ref, and null it. -/
def releaseIf (held : Bool) : Except String Bool :=
  if held then refRelease held else pure false

/-- `cleanupAudio`: stop every live source and clear the set, then for
each audio ref that is still held, release it (disconnect / stop tracks
/ close) and null it; finally close the channel via the session promise
(optional chaining, never throws) and null its ref. -/
def cleanupAudio (s : SessionState) : Except String SessionState := do
  let s := { s with stoppedBuffers := s.stoppedBuffers ∪ s.liveSet, liveSet := ∅ }
  let sp ← releaseIf s.scriptProcessor
  let sn ← releaseIf s.sourceNode
  let ast ← releaseIf s.audioStream
  let ic ← releaseIf s.inputCtx
  let oc ← releaseIf s.outputCtx
  Except.ok { s with
    scriptProcessor := sp, sourceNode := sn, audioStream := ast,
    inputCtx := ic, outputCtx := oc, sessionChannel := false }

/-- `cleanupVideo`: clear the frame interval and stop the video tracks,
each guarded on the ref being held. -/
def cleanupVideo (s : SessionState) : SessionState :=
  let s1 := if s.frameInterval then { s with frameInterval := false } else s
  if s1.videoStream then { s1 with videoStream := false } else s1

def stopVideo (s : SessionState) : SessionState :=
  { cleanupVideo s with isCameraActive := false }

/-- `stopSession`. -/
def stopSession (s : SessionState) : Except String SessionState := do
  let s := { s with isActive := false }
  let s := stopVideo s
  let s ← cleanupAudio s
  Except.ok { s with
    status := "SESSION TERMINATED", volume := 0,
    ui := { s.ui with activeWidget := none } }

/-- The state `cleanupAudio` always produces. -/
def audioCleared (s : SessionState) : SessionState :=
  { s with
    stoppedBuffers := s.stoppedBuffers ∪ s.liveSet, liveSet := ∅,
    scriptProcessor := false, sourceNode := false, audioStream := false,
    inputCtx := false, outputCtx := false, sessionChannel := false }

/-- The state `stopSession` always produces. -/
def stoppedState (s : SessionState) : SessionState :=
  { s with
    isActive := false, isCameraActive := false,
    frameInterval := false, videoStream := false,
    stoppedBuffers := s.stoppedBuffers ∪ s.liveSet, liveSet := ∅,
    scriptProcessor := false, sourceNode := false, audioStream := false,
    inputCtx := false, outputCtx := false, sessionChannel := false,
    status := "SESSION TERMINATED", volume := 0,
    ui := { s.ui with activeWidget := none } }

/-- No acquired device, timer or channel remains. -/
def releasedAll (s : SessionState) : Prop :=
  s.scriptProcessor = false ∧ s.sourceNode = false ∧ s.audioStream = false ∧
  s.inputCtx = false ∧ s.outputCtx = false ∧ s.sessionChannel = false ∧
  s.frameInterval = false ∧ s.videoStream = false ∧ s.liveSet = ∅

inductive MicResult
  | granted
  | denied
deriving DecidableEq

/-- `startSession` as a function of its oracle inputs: the presence of
the API key, the microphone acquisition outcome, and the fresh output
context's clock value.  `getUserMedia` sits inside the single try block,
before `ai.live.connect`; its rejection lands in the catch, which sets
an initialization-failed status, deactivates the session and runs
`cleanupAudio`. -/
def startSession (hasApiKey : Bool) (mic : MicResult) (ctxTime : ℚ)
    (s : SessionState) : Except String SessionState :=
  if !hasApiKey then
    Except.ok { s with status := "Error: API Key missing" }
  else
    let s1 := { s with
      status := "INITIALIZING NEURAL LINK...",
      ui := pushLog s.ui "Initializing Audio Context..." LogType.info,
      isActive := true,
      inputCtx := true, outputCtx := true,
      nextStartTime := ctxTime }
    match mic with
    | MicResult.granted =>
        Except.ok { s1 with
          audioStream := true,
          status := "ESTABLISHING UPLINK...",
          sessionChannel := true }
    | MicResult.denied => do
        let s2 := { s1 with status := "INITIALIZATION FAILED", isActive := false }
        let s3 ← cleanupAudio s2
        Except.ok s3

/-- The state a mic-denied `startSession` (with the key present)
always produces. -/
def micFailState (ctxTime : ℚ) (s : SessionState) : SessionState :=
  { s with
    status := "INITIALIZATION FAILED",
    ui := pushLog s.ui "Initializing Audio Context..." LogType.info,
    isActive := false,
    nextStartTime := ctxTime,
    stoppedBuffers := s.stoppedBuffers ∪ s.liveSet, liveSet := ∅,
    scriptProcessor := false, sourceNode := false, audioStream := false,
    inputCtx := false, outputCtx := false, sessionChannel := false }

/-- The `onopen` callback: status, log, and wiring of the capture graph. -/
def onOpen (s : SessionState) : SessionState :=
  { s with
    status := "NEURAL LINK ACTIVE",
    ui := pushLog s.ui "Connection Established" LogType.info,
    sourceNode := true, scriptProcessor := true }

def exceptState : Except String SessionState → Option SessionState
  | Except.ok t => some t
  | Except.error _ => none

def isErrorPayload : ToolPayload → Bool
  | ToolPayload.errorMsg _ => true
  | _ => false

/-- The eight declared tool names of the session configuration. -/
def declaredToolNames : List String :=
  ["set_reminder", "change_tab", "get_weather", "get_stock_price",
   "open_app", "order_food", "search_web", "render_widget"]

def emptyWidgetArgData : WidgetArgData :=
  ⟨none, none, none, none, none, none, none⟩

def emptyArgs : ToolArgs :=
  { widget_type := none, data := none, message := none, delay_seconds := none,
    tab_name := none, location := none, symbol := none, app_name := none,
    item := none, query := none }

def tokyoArgs : ToolArgs :=
  { emptyArgs with
    widget_type := some "weather_card",
    data := some { emptyWidgetArgData with
      location := some "Tokyo", temp := some 22, condition := some "Clear" } }

def tokyoCall : FunctionCall := ⟨"w1", "render_widget", tokyoArgs⟩

def fcBadTab : FunctionCall := ⟨"ct1", "change_tab", emptyArgs⟩

def fooBarCall : FunctionCall := ⟨"fb1", "foo_bar", emptyArgs⟩

def fooBarCall2 : FunctionCall := ⟨"fb2", "foo_bar", emptyArgs⟩

def gaugeCall : FunctionCall :=
  ⟨"g1", "render_widget", { emptyArgs with widget_type := some "gauge" }⟩

def env0 : ToolEnv :=
  { randomWeather := "Sunny", randomPrice := "123.45", stockDeltas := [],
    searchOutcome := some ("", []) }

def initialTask : TaskState :=
  { isActive := false, appName := none, actionDescription := none,
    status := TaskStatus.idle, details := none }

def initialUi : UiState :=
  { activeWidget := none, task := initialTask, logs := [],
    pendingTimers := [], reminders := [], tabChanges := [] }

/-- A state mid-session: connection open, capture wired, nothing played
yet. -/
def st0 : SessionState :=
  { nextStartTime := 0, liveSet := ∅, nextId := 0, scheduled := [],
    stoppedBuffers := ∅, toolResponses := [], ui := initialUi,
    isActive := true, isCameraActive := false, status := "NEURAL LINK ACTIVE",
    volume := 0, scriptProcessor := true, sourceNode := true,
    audioStream := true, inputCtx := true, outputCtx := true,
    sessionChannel := true, frameInterval := false, videoStream := false }

/-- A state before any session is started. -/
def stFresh : SessionState :=
  { st0 with
    isActive := false, status := "SYSTEM STANDBY",
    scriptProcessor := false, sourceNode := false, audioStream := false,
    inputCtx := false, outputCtx := false, sessionChannel := false }

/-- A state with two buffers live and the watermark ahead of the clock. -/
def stLive : SessionState :=
  { st0 with liveSet := insert 0 (insert 1 ∅), nextId := 2, nextStartTime := 7 }

theorem dispatchResult_id (cfg : SessionConfig) (env : ToolEnv) (fc : FunctionCall)
    (s : SessionState) : (dispatchResult cfg env fc s).id = fc.id := by
  unfold dispatchResult
  split <;> rfl

theorem dispatchResult_name (cfg : SessionConfig) (env : ToolEnv) (fc : FunctionCall)
    (s : SessionState) : (dispatchResult cfg env fc s).name = fc.name := by
  unfold dispatchResult
  split <;> rfl

theorem dispatchCall_toolResponses (cfg : SessionConfig) (env : ToolEnv) (fc : FunctionCall)
    (s : SessionState) :
    (dispatchCall cfg env fc s).toolResponses
      = s.toolResponses ++ [dispatchResult cfg env fc s] := by
  unfold dispatchCall dispatchResult
  split <;> rfl

theorem dispatchCall_nextStartTime (cfg : SessionConfig) (env : ToolEnv) (fc : FunctionCall)
    (s : SessionState) :
    (dispatchCall cfg env fc s).nextStartTime = s.nextStartTime := by
  unfold dispatchCall
  split <;> rfl

theorem handleToolCalls_ids (cfg : SessionConfig) (fcs : List FunctionCall) :
    ∀ (envs : List ToolEnv) (s : SessionState),
      ((handleToolCalls cfg envs fcs s).toolResponses).map ToolResult.id
        = (s.toolResponses).map ToolResult.id ++ fcs.map FunctionCall.id := by
  induction fcs with
  | nil => intro envs s; simp [handleToolCalls]
  | cons fc rest ih =>
      intro envs s
      rw [handleToolCalls, ih, dispatchCall_toolResponses]
      simp [dispatchResult_id]

theorem handleToolCalls_nextStartTime (cfg : SessionConfig) (fcs : List FunctionCall) :
    ∀ (envs : List ToolEnv) (s : SessionState),
      (handleToolCalls cfg envs fcs s).nextStartTime = s.nextStartTime := by
  induction fcs with
  | nil => intro envs s; rfl
  | cons fc rest ih =>
      intro envs s
      rw [handleToolCalls, ih]
      exact dispatchCall_nextStartTime cfg _ fc s

theorem runChunks_starts (l : List (ℚ × ℚ)) :
    ∀ s : SessionState, ∃ t : List ScheduledBuffer,
      (runChunks l s).scheduled = s.scheduled ++ t
      ∧ t.map ScheduledBuffer.start = chunkStarts s.nextStartTime l := by
  induction l with
  | nil => intro s; exact ⟨[], by simp [runChunks], rfl⟩
  | cons p rest ih =>
      obtain ⟨now, d⟩ := p
      intro s
      obtain ⟨t, ht, hm⟩ := ih (onmessage cfg0 [] now (audioMsg d) s)
      refine ⟨⟨s.nextId, max s.nextStartTime now, d⟩ :: t, ?_, ?_⟩
      · rw [runChunks, ht]
        show s.scheduled ++ [⟨s.nextId, max s.nextStartTime now, d⟩] ++ t = _
        simp
      · rw [List.map_cons, chunkStarts]
        exact congrArg (List.cons (max s.nextStartTime now)) hm

theorem newStarts_eq (l : List (ℚ × ℚ)) (s : SessionState) :
    newStarts l s = chunkStarts s.nextStartTime l := by
  obtain ⟨t, ht, hm⟩ := runChunks_starts l s
  unfold newStarts
  rw [ht, List.drop_left, hm]

theorem chunkStarts_prompt (l : List (ℚ × ℚ)) :
    ∀ w : ℚ, promptTail w l = true →
      chunkStarts w l = gaplessFrom w (l.map Prod.snd) := by
  induction l with
  | nil => intro w _; rfl
  | cons p rest ih =>
      obtain ⟨now, d⟩ := p
      intro w h
      rw [promptTail, Bool.and_eq_true, decide_eq_true_eq] at h
      obtain ⟨h1, h2⟩ := h
      have hm : max w now = w := max_eq_left h1
      rw [chunkStarts, List.map_cons, gaplessFrom, hm]
      rw [hm] at h2
      exact congrArg (List.cons w) (ih (w + d) h2)

theorem releaseIf_eq (b : Bool) : releaseIf b = (Except.ok false : Except String Bool) := by
  cases b <;> rfl

theorem cleanupAudio_eq (s : SessionState) : cleanupAudio s = Except.ok (audioCleared s) := by
  unfold cleanupAudio audioCleared
  simp only [releaseIf_eq]
  rfl

theorem cleanupVideo_eq (s : SessionState) :
    cleanupVideo s = { s with frameInterval := false, videoStream := false } := by
  unfold cleanupVideo
  by_cases h1 : s.frameInterval <;> by_cases h2 : s.videoStream
  all_goals simp [h1, h2]
  all_goals ext <;> simp [h1, h2]

theorem stopSession_eq (s : SessionState) : stopSession s = Except.ok (stoppedState s) := by
  unfold stopSession stopVideo
  simp only [cleanupVideo_eq, cleanupAudio_eq]
  rfl

theorem stoppedState_idem (s : SessionState) :
    stoppedState (stoppedState s) = stoppedState s := by
  unfold stoppedState
  ext <;> simp

theorem stoppedState_released (s : SessionState) : releasedAll (stoppedState s) := by
  unfold stoppedState releasedAll
  exact ⟨rfl, rfl, rfl, rfl, rfl, rfl, rfl, rfl, rfl⟩

theorem startSession_denied (ctxTime : ℚ) (s : SessionState) :
    startSession true MicResult.denied ctxTime s = Except.ok (micFailState ctxTime s) := by
  unfold startSession
  simp only [Bool.not_true, Bool.false_eq_true, if_false, cleanupAudio_eq]
  rfl

/-- C1 counterexample: the unconditional recurrence of the claim fails.
Two chunks of duration 1 arriving at clock times 0 and 5 from watermark 0
are scheduled at starts 0 and 5, not at the claimed back-to-back starts
0 and 1: the second chunk arrives after the watermark has fallen behind
the clock and `max` resynchronizes to now. -/
theorem C1_counterexample :
    newStarts [(0, 1), (5, 1)] st0 ≠ gaplessFrom (max st0.nextStartTime 0) [1, 1] := by
  have h1 : newStarts [(0, 1), (5, 1)] st0 = [0, 5] := by
    simp [newStarts, runChunks, onmessage, audioMsg, st0]
  have h2 : gaplessFrom (max st0.nextStartTime 0) [1, 1] = [0, 1] := by
    simp [gaplessFrom, st0]
  rw [h1, h2]
  decide

/-- C1 (amended): on receipt of a chunk the scheduler computes
`start = max(watermark, now)`, schedules at `start`, advances the
watermark to `start + d` and adds the buffer to the live set (removed on
natural end); and provided every later chunk arrives no later than the
current watermark, the scheduled starts satisfy `s1 = max(watermark0, now)`
and each next start is the previous start plus the previous duration. -/
theorem C1_gapless_scheduling (s : SessionState) (n1 d1 : ℚ) (chunks : List (ℚ × ℚ))
    (h : promptTail (max s.nextStartTime n1 + d1) chunks = true) :
    (∀ (now d : ℚ) (t : SessionState),
        onmessage cfg0 [] now (audioMsg d) t
          = { t with
              nextStartTime := max t.nextStartTime now + d,
              liveSet := insert t.nextId t.liveSet,
              nextId := t.nextId + 1,
              scheduled := t.scheduled ++ [⟨t.nextId, max t.nextStartTime now, d⟩] })
  ∧ (∀ (i : Nat) (t : SessionState),
        onBufferEnded i t = { t with liveSet := t.liveSet.erase i })
  ∧ newStarts ((n1, d1) :: chunks) s
      = gaplessFrom (max s.nextStartTime n1) (d1 :: chunks.map Prod.snd) := by
  refine ⟨fun now d t => rfl, fun i t => rfl, ?_⟩
  rw [newStarts_eq]
  show max s.nextStartTime n1 :: chunkStarts (max s.nextStartTime n1 + d1) chunks = _
  rw [gaplessFrom]
  exact congrArg (List.cons _) (chunkStarts_prompt chunks _ h)

/-- C1 witness: the spec's example run, three chunks of duration 0.50s,
0.30s, 0.20s arriving back to back at clock 0. -/
theorem C1_witness :
    promptTail (max st0.nextStartTime 0 + 1/2) [(0, 3/10), (0, 1/5)] = true
  ∧ newStarts ((0, 1/2) :: [(0, 3/10), (0, 1/5)]) st0
      = gaplessFrom (max st0.nextStartTime 0) (1/2 :: [((0:ℚ), (3:ℚ)/10), (0, 1/5)].map Prod.snd) := by
  have hp : promptTail (max st0.nextStartTime 0 + 1/2) [(0, 3/10), (0, 1/5)] = true := by
    simp [promptTail, st0]
    norm_num
  exact ⟨hp, (C1_gapless_scheduling st0 0 (1/2) [(0, 3/10), (0, 1/5)] hp).2.2⟩

/-- C2: an interrupt message empties the live set after stopping every
buffer that was in it, resets the watermark to the current output clock
time, and the next scheduled chunk starts at `max now now2`, which is at
least the clock time of the interrupt. -/
theorem C2_interrupt_flush (cfg : SessionConfig) (envs : List ToolEnv)
    (now now2 d : ℚ) (m : ServerMessage) (s : SessionState)
    (hI : m.interrupted = true) (hCtx : s.outputCtx = true) :
    (onmessage cfg envs now m s).liveSet = ∅
  ∧ s.liveSet ⊆ (onmessage cfg envs now m s).stoppedBuffers
  ∧ (onmessage cfg envs now m s).nextStartTime = now
  ∧ (onmessage cfg envs now2 (audioMsg d) (onmessage cfg envs now m s)).scheduled
      = (onmessage cfg envs now m s).scheduled
        ++ [⟨(onmessage cfg envs now m s).nextId, max now now2, d⟩]
  ∧ now ≤ max now now2 := by
  have hred : onmessage cfg envs now m s
      = { s with
          ui := pushLog s.ui "User Interruption Detected" LogType.info,
          stoppedBuffers := s.stoppedBuffers ∪ s.liveSet,
          liveSet := ∅,
          nextStartTime := now } := by
    unfold onmessage
    simp [hI, hCtx]
  rw [hred]
  exact ⟨rfl, Finset.subset_union_right, rfl, rfl, le_max_left now now2⟩

/-- C2 witness: a concrete interrupt at clock 3 on a state with two
live buffers, followed by a chunk arriving at clock 4. -/
theorem C2_witness :
    (onmessage cfg0 [] 3 interruptMsg stLive).liveSet = ∅
  ∧ stLive.liveSet ⊆ (onmessage cfg0 [] 3 interruptMsg stLive).stoppedBuffers
  ∧ (onmessage cfg0 [] 3 interruptMsg stLive).nextStartTime = 3
  ∧ (onmessage cfg0 [] 4 (audioMsg (1/2)) (onmessage cfg0 [] 3 interruptMsg stLive)).scheduled
      = (onmessage cfg0 [] 3 interruptMsg stLive).scheduled
        ++ [⟨(onmessage cfg0 [] 3 interruptMsg stLive).nextId, max 3 4, 1/2⟩]
  ∧ (3:ℚ) ≤ max 3 4 :=
  C2_interrupt_flush cfg0 [] 3 4 (1/2) interruptMsg stLive rfl rfl

/-- C3: every dispatched function call produces exactly one response,
in order, carrying the call's id; and a call whose handler throws gets
the `Tool execution failed` error payload (the loop then proceeds with
the remaining calls, as the first conjunct shows for any batch). -/
theorem C3_exactly_one_result (cfg : SessionConfig) (envs : List ToolEnv)
    (fcs : List FunctionCall) (s : SessionState) :
    ((handleToolCalls cfg envs fcs s).toolResponses).map ToolResult.id
      = (s.toolResponses).map ToolResult.id ++ fcs.map FunctionCall.id
  ∧ ∀ (env : ToolEnv) (fc : FunctionCall) (t : SessionState) (u : UiState),
      runTool cfg env fc (pushLog t.ui ("Exec: " ++ fc.name) LogType.tool) = Except.error u →
      dispatchResult cfg env fc t
        = ⟨fc.id, fc.name, ToolPayload.errorMsg "Tool execution failed"⟩ := by
  refine ⟨handleToolCalls_ids cfg fcs envs s, ?_⟩
  intro env fc t u h
  unfold dispatchResult
  rw [h]

/-- C3 witness: a batch of a widget call and a throwing `change_tab`
call (its `tab_name` is undefined); both calls get a response with the
matching id, the throwing one with the error payload. -/
theorem C3_witness :
    ((handleToolCalls cfg0 [env0, env0] [tokyoCall, fcBadTab] st0).toolResponses).map ToolResult.id
      = ["w1", "ct1"]
  ∧ dispatchResult cfg0 env0 fcBadTab st0
      = ⟨"ct1", "change_tab", ToolPayload.errorMsg "Tool execution failed"⟩ := by
  have h := C3_exactly_one_result cfg0 [env0, env0] [tokyoCall, fcBadTab] st0
  refine ⟨by rw [h.1]; rfl, h.2 env0 fcBadTab st0 _ rfl⟩

/-- C4 counterexample: the unrecognized tool name `foo_bar` does not get
an error payload; the dispatcher falls through the name chain and sends
the initial success payload `\x7b result: "ok" \x7d`. -/
theorem C4_counterexample :
    dispatchResult cfg0 env0 fooBarCall st0 = ⟨"fb1", "foo_bar", ToolPayload.resultMsg "ok"⟩
  ∧ isErrorPayload (dispatchResult cfg0 env0 fooBarCall st0).response = false := by
  exact ⟨by decide, by decide⟩

/-- C4 (amended): a call whose name is not among the declared tools
still yields exactly one response with the call's id, but carrying the
default success payload `\x7b result: "ok" \x7d` rather than an error; every
other call of any batch is still answered (one response per call, ids
in order). -/
theorem C4_unknown_tool_default_ok (cfg : SessionConfig) (env : ToolEnv)
    (fc : FunctionCall) (s : SessionState) (h : fc.name ∉ declaredToolNames) :
    dispatchResult cfg env fc s = ⟨fc.id, fc.name, ToolPayload.resultMsg "ok"⟩
  ∧ (dispatchCall cfg env fc s).toolResponses
      = s.toolResponses ++ [⟨fc.id, fc.name, ToolPayload.resultMsg "ok"⟩]
  ∧ ∀ (envs : List ToolEnv) (fcs : List FunctionCall) (t : SessionState),
      ((handleToolCalls cfg envs fcs t).toolResponses).map ToolResult.id
        = (t.toolResponses).map ToolResult.id ++ fcs.map FunctionCall.id := by
  simp only [declaredToolNames, List.mem_cons, List.not_mem_nil, or_false, not_or] at h
  obtain ⟨h1, h2, h3, h4, h5, h6, h7, h8⟩ := h
  have hres : dispatchResult cfg env fc s = ⟨fc.id, fc.name, ToolPayload.resultMsg "ok"⟩ := by
    unfold dispatchResult runTool
    simp [h1, h2, h3, h4, h5, h6, h7, h8]
  refine ⟨hres, ?_, fun envs fcs t => handleToolCalls_ids cfg fcs envs t⟩
  rw [dispatchCall_toolResponses, hres]

/-- C4 witness: a second `foo_bar` call, answered with the default
success payload and exactly one appended response. -/
theorem C4_witness :
    dispatchResult cfg0 env0 fooBarCall2 st0 = ⟨"fb2", "foo_bar", ToolPayload.resultMsg "ok"⟩
  ∧ (dispatchCall cfg0 env0 fooBarCall2 st0).toolResponses
      = st0.toolResponses ++ [⟨"fb2", "foo_bar", ToolPayload.resultMsg "ok"⟩] := by
  have h := C4_unknown_tool_default_ok cfg0 env0 fooBarCall2 st0 (by decide)
  exact ⟨h.1, h.2.1⟩

/-- C5 counterexample: with the API key present and the microphone
denied, `startSession` does not leave the session running
audio-capture-less; the catch deactivates it and reports
initialization failure. -/
theorem C5_counterexample :
    (exceptState (startSession true MicResult.denied 0 stFresh)).map SessionState.isActive
      = some false
  ∧ (exceptState (startSession true MicResult.denied 0 stFresh)).map SessionState.status
      = some "INITIALIZATION FAILED"
  ∧ ¬ ((exceptState (startSession true MicResult.denied 0 stFresh)).map SessionState.isActive
      = some true) := by
  exact ⟨by decide, by decide, by decide⟩

/-- C5 (amended): if acquiring the microphone fails during session
start, the catch handler sets status `INITIALIZATION FAILED`,
deactivates the session and runs audio cleanup; no channel is opened and
the session does not continue in an audio-capture-less state. -/
theorem C5_mic_denied_teardown (ctxTime : ℚ) (s : SessionState) :
    startSession true MicResult.denied ctxTime s = Except.ok (micFailState ctxTime s)
  ∧ (micFailState ctxTime s).isActive = false
  ∧ (micFailState ctxTime s).status = "INITIALIZATION FAILED"
  ∧ (micFailState ctxTime s).audioStream = false
  ∧ (micFailState ctxTime s).sessionChannel = false
  ∧ (micFailState ctxTime s).inputCtx = false
  ∧ (micFailState ctxTime s).outputCtx = false :=
  ⟨startSession_denied ctxTime s, rfl, rfl, rfl, rfl, rfl, rfl⟩


theorem onmessage_nextStartTime (cfg : SessionConfig) (envs : List ToolEnv) (now : ℚ)
    (m : ServerMessage) (s : SessionState) (hI : m.interrupted = false) :
    (onmessage cfg envs now m s).nextStartTime
      = (match m.audio with
         | none => s.nextStartTime
         | some (AudioDecode.ok d) => max s.nextStartTime now + d
         | some AudioDecode.failed => max s.nextStartTime now) := by
  unfold onmessage
  simp only [hI, Bool.false_eq_true, if_false]
  cases hc : m.toolCall with
  | none =>
      cases ha : m.audio with
      | none => rfl
      | some a => cases a <;> rfl
  | some fcs =>
      cases ha : m.audio with
      | none => exact handleToolCalls_nextStartTime cfg fcs envs s
      | some a =>
          cases a with
          | ok d =>
              rw [show ({ handleToolCalls cfg envs fcs s with
                    nextStartTime := max (handleToolCalls cfg envs fcs s).nextStartTime now + d,
                    liveSet := insert (handleToolCalls cfg envs fcs s).nextId
                      (handleToolCalls cfg envs fcs s).liveSet,
                    nextId := (handleToolCalls cfg envs fcs s).nextId + 1,
                    scheduled := (handleToolCalls cfg envs fcs s).scheduled ++
                      [⟨(handleToolCalls cfg envs fcs s).nextId,
                        max (handleToolCalls cfg envs fcs s).nextStartTime now, d⟩] }
                  : SessionState).nextStartTime
                = max (handleToolCalls cfg envs fcs s).nextStartTime now + d from rfl]
              rw [handleToolCalls_nextStartTime cfg fcs envs s]
          | failed =>
              rw [show ({ handleToolCalls cfg envs fcs s with
                    nextStartTime := max (handleToolCalls cfg envs fcs s).nextStartTime now }
                  : SessionState).nextStartTime
                = max (handleToolCalls cfg envs fcs s).nextStartTime now from rfl]
              rw [handleToolCalls_nextStartTime cfg fcs envs s]

/-- C6: on any non-interrupt message with a non-negative decoded
duration the watermark never decreases (tool dispatch leaves it
untouched, scheduling advances it, a failed decode at most pulls it up
to now); natural buffer completion leaves it unchanged; and the sole
exception is an interrupt, which resets it to the current output clock
time. -/
theorem C6_watermark_monotone (cfg : SessionConfig) (envs : List ToolEnv)
    (now : ℚ) (m : ServerMessage) (s : SessionState)
    (hI : m.interrupted = false)
    (hd : ∀ d, m.audio = some (AudioDecode.ok d) → 0 ≤ d) :
    s.nextStartTime ≤ (onmessage cfg envs now m s).nextStartTime
  ∧ (∀ (i : Nat) (t : SessionState), (onBufferEnded i t).nextStartTime = t.nextStartTime)
  ∧ (∀ (t : SessionState) (now2 : ℚ), t.outputCtx = true →
      (onmessage cfg envs now2 interruptMsg t).nextStartTime = now2) := by
  refine ⟨?_, fun i t => rfl, ?_⟩
  · rw [onmessage_nextStartTime cfg envs now m s hI]
    cases ha : m.audio with
    | none => exact le_refl _
    | some a =>
        cases a with
        | ok d => exact le_trans (le_max_left _ _) (le_add_of_nonneg_right (hd d ha))
        | failed => exact le_max_left _ _
  · intro t now2 hc
    unfold onmessage
    simp [interruptMsg, hc]

/-- C6 witness: a chunk of duration 1 arriving at clock 2 does not
decrease the watermark, and an interrupt at clock 5 resets it to 5. -/
theorem C6_witness :
    st0.nextStartTime ≤ (onmessage cfg0 [] 2 (audioMsg 1) st0).nextStartTime
  ∧ (onmessage cfg0 [] 5 interruptMsg st0).nextStartTime = 5 := by
  have hd : ∀ d : ℚ, (audioMsg 1).audio = some (AudioDecode.ok d) → 0 ≤ d := by
    intro d hdd
    simp [audioMsg] at hdd
    rw [← hdd]
    norm_num
  have h := C6_watermark_monotone cfg0 [] 2 (audioMsg 1) st0 rfl hd
  exact ⟨h.1, h.2.2 st0 5 rfl⟩

/-- C7: session teardown is idempotent and error-free: `stopSession`
returns normally with every device, timer and channel released and the
live set empty, and a second call returns the same state again without
error. -/
theorem C7_stop_idempotent (s : SessionState) :
    ∃ t, stopSession s = Except.ok t ∧ stopSession t = Except.ok t ∧ releasedAll t := by
  refine ⟨stoppedState s, stopSession_eq s, ?_, stoppedState_released s⟩
  rw [stopSession_eq, stoppedState_idem]

/-- C8 counterexample: a chunk whose decode fails produces no log entry
(the rejection propagates out of the handler uncaught), contradicting
the claim that the failure is logged. -/
theorem C8_counterexample :
    ¬ (st0.ui.logs.length < ((onmessage cfg0 [] 0 failMsg st0).ui.logs).length) := by
  decide

/-- C8 (amended): a chunk whose decode fails is dropped: nothing is
scheduled, the live set is unchanged, no log entry is produced, the
watermark is only pulled up to `max(watermark, now)`; and a subsequent
chunk is still decoded and scheduled normally. -/
theorem C8_decode_failure_dropped (cfg : SessionConfig) (envs : List ToolEnv)
    (now now2 d : ℚ) (s : SessionState) :
    (onmessage cfg envs now failMsg s).scheduled = s.scheduled
  ∧ (onmessage cfg envs now failMsg s).liveSet = s.liveSet
  ∧ (onmessage cfg envs now failMsg s).ui.logs = s.ui.logs
  ∧ (onmessage cfg envs now failMsg s).nextStartTime = max s.nextStartTime now
  ∧ (onmessage cfg envs now2 (audioMsg d) (onmessage cfg envs now failMsg s)).scheduled
      = s.scheduled ++ [⟨s.nextId, max (max s.nextStartTime now) now2, d⟩] :=
  ⟨rfl, rfl, rfl, rfl, rfl⟩

/-- C9: invoking `render_widget` with widget_type `weather_card` and
data `location Tokyo, temp 22, condition Clear` sets the single-slot
widget to the weather variant with exactly those fields and answers the
call with the success payload. -/
theorem C9_weather_widget :
    (dispatchCall cfg0 env0 tokyoCall st0).ui.activeWidget
      = some (WidgetData.weather "Tokyo" 22 "Clear")
  ∧ dispatchResult cfg0 env0 tokyoCall st0
      = ⟨"w1", "render_widget", ToolPayload.resultMsg "Widget rendered successfully."⟩ := by
  exact ⟨by decide, by decide⟩

/-- C10: a `render_widget` call whose widget_type matches none of the
four supported discriminators leaves the widget slot unchanged, yet is
still answered with the success payload
`Widget rendered successfully.`. -/
theorem C10_unknown_widget_type (cfg : SessionConfig) (env : ToolEnv)
    (fc : FunctionCall) (s : SessionState) (t : String)
    (hname : fc.name = "render_widget") (htype : fc.args.widget_type = some t)
    (h1 : t ≠ "weather_card") (h2 : t ≠ "stock_chart")
    (h3 : t ≠ "map_view") (h4 : t ≠ "note_pad") :
    (dispatchCall cfg env fc s).ui.activeWidget = s.ui.activeWidget
  ∧ dispatchResult cfg env fc s
      = ⟨fc.id, fc.name, ToolPayload.resultMsg "Widget rendered successfully."⟩ := by
  have hrun : runTool cfg env fc (pushLog s.ui ("Exec: " ++ fc.name) LogType.tool)
      = Except.ok (ToolPayload.resultMsg "Widget rendered successfully.",
          pushLog (pushLog s.ui ("Exec: " ++ fc.name) LogType.tool)
            ("Rendering UI: " ++ jsTemplate (some t)) LogType.thought) := by
    unfold runTool finishRender
    simp [hname, htype, h1, h2, h3, h4]
  constructor
  · unfold dispatchCall
    rw [hrun]
    simp [pushLog]
  · unfold dispatchResult
    rw [hrun]

/-- C10 witness: a `render_widget` call with the unknown widget_type
`gauge`. -/
theorem C10_witness :
    (dispatchCall cfg0 env0 gaugeCall st0).ui.activeWidget = st0.ui.activeWidget
  ∧ dispatchResult cfg0 env0 gaugeCall st0
      = ⟨"g1", "render_widget", ToolPayload.resultMsg "Widget rendered successfully."⟩ :=
  C10_unknown_widget_type cfg0 env0 gaugeCall st0 "gauge" rfl rfl
    (by decide) (by decide) (by decide) (by decide)
